import Mathlib

/-
Verification development for the NV_BRT repository (src/main.py and
src/make_json.py): a shallow embedding of the backup script's state and
operations, followed by theorems about the spec's claims.

The filesystem is modelled explicitly: paths are lists of components,
a text file's content is its list of written lines (every `f.write` in
the source writes whole lines ending in a newline).  Each external I/O
step (the nvidia-smi subprocess, `Path.mkdir`, `shutil.copytree`, the
`reg export` subprocess) is parametrised by an outcome describing how
the surrounding operating system behaved; the embedding of each Python
function then computes exactly what the source does with that outcome.
Python exceptions are modelled with `Except`: an uncaught exception is
an `Except.error` value.  Log records written through the `logging`
module are appended to the file `nvidia_backup.log` (the `%(asctime)s`
prefix of the configured format is abstracted away; the level name and
message are kept).
-/

namespace NVBRT

abbrev FsPath := List String

/-- Filesystem state: text-file contents (as line lists) and the set of
existing directories. -/
structure FS where
  files : FsPath → Option (List String)
  dirs : FsPath → Bool

/-- Python exceptions that can escape the script's guards. -/
inductive PyErr where
  | osError
  | indexError
  | permissionError
deriving DecidableEq, Repr

/-- Boolean path-prefix test on component lists. -/
def isPref : List String → List String → Bool
  | [], _ => true
  | _ :: _, [] => false
  | a :: as, b :: bs => a == b && isPref as bs

/-- `str()` of a `pathlib.Path` on Windows: components joined by a
backslash. -/
def pathStr (p : FsPath) : String := String.intercalate "\\" p

/-- The fixed-name log file configured in `setup_logging`. -/
def logPath : FsPath := ["nvidia_backup.log"]

/-- Append one log record to the log file (creating it if absent), as the
configured `FileHandler` does. -/
def appendLog (msg : String) (fs : FS) : FS :=
  { fs with
    files := fun p =>
      if p = logPath then some (((fs.files logPath).getD []) ++ [msg])
      else fs.files p }

/-- Overwrite a file with the given lines, as `open(path, "w")` followed by
writes does. -/
def setFile (p : FsPath) (content : List String) (fs : FS) : FS :=
  { fs with files := fun q => if q = p then some content else fs.files q }

/-- How the `subprocess.run(['nvidia-smi', ...], check=True)` call behaved:
it produced stdout lines, or the process exited non-zero
(`CalledProcessError`), or `subprocess.run` itself raised an OS-level
error (e.g. `FileNotFoundError` when nvidia-smi is not installed). -/
inductive QueryOutcome where
  | ok (stdoutLines : List String)
  | calledProcessError
  | osError
deriving DecidableEq, Repr

/-- `get_nvidia_driver_info` from src/main.py.  Only
`subprocess.CalledProcessError` is caught; an OS-level error from
`subprocess.run` propagates, as does the `IndexError` from
`result.stdout.splitlines()[1]` when stdout has fewer than two lines. -/
def get_nvidia_driver_info (o : QueryOutcome) (fs : FS) : Except PyErr (String × FS) :=
  match o with
  | .ok lines =>
      match lines[1]? with
      | some l =>
          .ok (l.trim, appendLog ("INFO - NVIDIA Driver Version: " ++ l.trim) fs)
      | none => .error .indexError
  | .calledProcessError =>
      .ok ("Unknown", appendLog "ERROR - Failed to retrieve NVIDIA driver info" fs)
  | .osError => .error .osError

/-- A wall-clock reading at second resolution, the input of
`datetime.datetime.now().strftime("%Y%m%d_%H%M%S")`. -/
structure DateTime where
  y : Nat
  mo : Nat
  d : Nat
  h : Nat
  mi : Nat
  s : Nat
deriving DecidableEq, Repr

/-- Validity bounds of a Python `datetime` truncated to seconds
(`MINYEAR = 1`, `MAXYEAR = 9999`). -/
def ValidDT (t : DateTime) : Prop :=
  1 ≤ t.y ∧ t.y ≤ 9999 ∧ 1 ≤ t.mo ∧ t.mo ≤ 12 ∧ 1 ≤ t.d ∧ t.d ≤ 31 ∧
  t.h ≤ 23 ∧ t.mi ≤ 59 ∧ t.s ≤ 59

instance (t : DateTime) : Decidable (ValidDT t) := by
  unfold ValidDT; infer_instance

/-- The character of a decimal digit. -/
def digitChar (d : Nat) : Char := Char.ofNat (48 + d)

/-- Exactly `w` decimal characters of `n`, zero-padded on the left
(the low `w` digits of `n`). -/
def fixedDigits : Nat → Nat → List Char
  | 0, _ => []
  | w + 1, n => fixedDigits w (n / 10) ++ [digitChar (n % 10)]

/-- Zero-padded decimal rendering of width `w`, as strftime's `%04d`-style
fields produce; numbers too wide for the field keep all their digits. -/
def padDigits (w n : Nat) : List Char :=
  if n < 10 ^ w then fixedDigits w n else Nat.toDigits 10 n

/-- The characters of `strftime("%Y%m%d_%H%M%S")`. -/
def strftimeChars (t : DateTime) : List Char :=
  padDigits 4 t.y ++ padDigits 2 t.mo ++ padDigits 2 t.d ++ ['_'] ++
  padDigits 2 t.h ++ padDigits 2 t.mi ++ padDigits 2 t.s

/-- The backup directory name built in `create_backup_directory`. -/
def backupDirName (t : DateTime) : String :=
  "NVIDIA_Settings_Backup_" ++ String.mk (strftimeChars t)

/-- `str(datetime.datetime.now())` truncated to seconds, used in the
`Backup Date:` line of driver_info.txt. -/
def datetimeStr (t : DateTime) : String :=
  String.mk (padDigits 4 t.y ++ ['-'] ++ padDigits 2 t.mo ++ ['-'] ++
    padDigits 2 t.d ++ [' '] ++ padDigits 2 t.h ++ [':'] ++
    padDigits 2 t.mi ++ [':'] ++ padDigits 2 t.s)

/-- How `Path.mkdir` behaved when it actually had to create something. -/
inductive MkdirOutcome where
  | ok
  | err (e : PyErr)
deriving DecidableEq, Repr

/-- `Path.mkdir(parents=True, exist_ok=True)`: an existing target is
accepted silently; otherwise the directory and all its ancestors are
created, unless the OS refuses (an uncaught exception). -/
def pyMkdir (target : FsPath) (o : MkdirOutcome) (fs : FS) : Except PyErr FS :=
  if fs.dirs target then .ok fs
  else
    match o with
    | .ok => .ok { fs with dirs := fun q => fs.dirs q || isPref q target }
    | .err e => .error e

/-- `create_backup_directory` from src/main.py: build the timestamped name
under the home directory, `mkdir` it, log, and return the path. -/
def create_backup_directory (home : FsPath) (t : DateTime) (o : MkdirOutcome)
    (fs : FS) : Except PyErr (FsPath × FS) :=
  let dir := home ++ [backupDirName t]
  match pyMkdir dir o fs with
  | .ok fs1 => .ok (dir, appendLog ("INFO - Created backup directory: " ++ pathStr dir) fs1)
  | .error e => .error e

/-- The source profile directory `Path(os.getenv('PROGRAMDATA')) /
"NVIDIA Corporation" / "Drs"`. -/
def srcDirOf (programData : String) : FsPath :=
  [programData, "NVIDIA Corporation", "Drs"]

/-- `Path.exists()`: true for an existing directory or an existing file. -/
def pathExists (p : FsPath) (fs : FS) : Bool :=
  fs.dirs p || (fs.files p).isSome

/-- How `shutil.copytree` behaved: complete success, or an exception after
some files (given by their relative paths) were already copied. -/
inductive CopyOutcome where
  | ok
  | fail (copied : List (FsPath × List String))
deriving DecidableEq, Repr

/-- The state after a successful `shutil.copytree(src, dest,
dirs_exist_ok=True)`: every file `src ++ rel` now also exists at
`dest ++ rel`, the destination directory and the copied subdirectories
exist, and nothing outside `dest` changes. -/
def copytreeOk (src dest : FsPath) (fs : FS) : FS :=
  { files := fun p =>
      if isPref dest p then
        match fs.files (src ++ p.drop dest.length) with
        | some c => some c
        | none => fs.files p
      else fs.files p,
    dirs := fun p =>
      if isPref dest p then
        decide (p.drop dest.length = []) ||
          fs.dirs (src ++ p.drop dest.length) || fs.dirs p
      else fs.dirs p }

/-- The state after a failed `shutil.copytree`: the destination directory
exists and the files copied before the failure sit under it; nothing
outside `dest` changes. -/
def copytreeFailState (dest : FsPath) (copied : List (FsPath × List String))
    (fs : FS) : FS :=
  { files := fun p =>
      if isPref dest p then
        match copied.lookup (p.drop dest.length) with
        | some c => some c
        | none => fs.files p
      else fs.files p,
    dirs := fun p =>
      if isPref dest p then decide (p.drop dest.length = []) || fs.dirs p
      else fs.dirs p }

/-- `backup_nvidia_profile_files` from src/main.py: return False when the
source directory is missing; otherwise `copytree` into
`backup_dir / "NVIDIA_Profiles"`, catching every exception and turning it
into a False return. -/
def backup_nvidia_profile_files (programData : String) (backupDir : FsPath)
    (o : CopyOutcome) (fs : FS) : Bool × FS :=
  let srcDir := srcDirOf programData
  if pathExists srcDir fs then
    let destDir := backupDir ++ ["NVIDIA_Profiles"]
    match o with
    | .ok =>
        (true, appendLog ("INFO - Backed up NVIDIA profile files to: " ++ pathStr destDir)
          (copytreeOk srcDir destDir fs))
    | .fail copied =>
        (false, appendLog "ERROR - Failed to back up NVIDIA profile files"
          (copytreeFailState (backupDir ++ ["NVIDIA_Profiles"]) copied fs))
  else
    (false, appendLog ("WARNING - NVIDIA profile directory not found: " ++ pathStr srcDir) fs)

/-- How the `reg export` subprocess behaved: it wrote the export file with
some content, or exited non-zero (`CalledProcessError`). -/
inductive RegOutcome where
  | ok (content : List String)
  | err
deriving DecidableEq, Repr

/-- `backup_nvidia_registry_settings` from src/main.py: run `reg export`
into `backup_dir / "nvidia_registry_backup.reg"`, catching
`CalledProcessError` and returning a success flag. -/
def backup_nvidia_registry_settings (backupDir : FsPath) (o : RegOutcome)
    (fs : FS) : Bool × FS :=
  let regFile := backupDir ++ ["nvidia_registry_backup.reg"]
  match o with
  | .ok content =>
      (true, appendLog ("INFO - Backed up NVIDIA registry settings to: " ++ pathStr regFile)
        (setFile regFile content fs))
  | .err =>
      (false, appendLog "ERROR - Failed to back up NVIDIA registry settings" fs)

/-- The observable actions of one run of `main`, in program order. -/
inductive Event where
  | queryDriver
  | createDir
  | copyProfiles
  | exportRegistry
  | printStatus (full : Bool)
  | writeDriverInfo
  | printNextSteps
deriving DecidableEq, Repr

/-- The four lines written to driver_info.txt by `main`. -/
def driverInfoLines (driverVersion : String) (now : DateTime) : List String :=
  ["NVIDIA Driver Version: " ++ driverVersion,
   "Backup Date: " ++ datetimeStr now,
   "System: Windows 11 Pro 64-bit (Build 26100)",
   "GPU: NVIDIA GeForce RTX 4070 Ti SUPER"]

/-- The result of a completed run of `main`. -/
structure MainResult where
  trace : List Event
  backupDir : FsPath
  fs : FS

/-- `main` from src/main.py.  `tDir` and `tWrite` are the two
`datetime.datetime.now()` readings (in `create_backup_directory` and at
the driver_info.txt write).  The trace records the run's actions in the
order the source performs them: the status summary is printed before
driver_info.txt is written, and the next-steps text is printed last. -/
def main (home : FsPath) (programData : String) (qo : QueryOutcome)
    (mo : MkdirOutcome) (co : CopyOutcome) (ro : RegOutcome)
    (tDir tWrite : DateTime) (fs0 : FS) : Except PyErr MainResult :=
  let fsStart := appendLog "INFO - Starting NVIDIA driver settings backup process" fs0
  match get_nvidia_driver_info qo fsStart with
  | .error e => .error e
  | .ok (driverVersion, fs1) =>
    match create_backup_directory home tDir mo fs1 with
    | .error e => .error e
    | .ok (backupDir, fs2) =>
      let pr := backup_nvidia_profile_files programData backupDir co fs2
      let rr := backup_nvidia_registry_settings backupDir ro pr.2
      let full := pr.1 && rr.1
      let fs5 :=
        if full then
          appendLog ("INFO - Backup completed successfully. Files saved to: " ++ pathStr backupDir) rr.2
        else
          appendLog "WARNING - Backup partially failed. Check log for details." rr.2
      let fs6 := setFile (backupDir ++ ["driver_info.txt"]) (driverInfoLines driverVersion tWrite) fs5
      .ok { trace := [.queryDriver, .createDir, .copyProfiles, .exportRegistry,
                      .printStatus full, .writeDriverInfo, .printNextSteps],
            backupDir := backupDir,
            fs := fs6 }

/-- JSON string escaping as `json.dump` applies to the values written by
src/make_json.py (backslash and double quote). -/
def jsonEscape (s : String) : String :=
  String.mk ((s.data.map fun c =>
    if c = '\\' then ['\\', '\\']
    else if c = '"' then ['\\', '"']
    else [c]).flatten)

/-- One `indent=4` entry line of the dumped object. -/
def jsonEntryLine (isLast : Bool) (kv : String × String) : String :=
  "    \"" ++ jsonEscape kv.1 ++ "\": \"" ++ jsonEscape kv.2 ++ "\"" ++
    (if isLast then "" else ",")

def jsonEntryLines : List (String × String) → List String
  | [] => []
  | [kv] => [jsonEntryLine true kv]
  | kv :: rest => jsonEntryLine false kv :: jsonEntryLines rest

/-- `json.dump(config, f, indent=4)` for a flat string-to-string object,
as its line list. -/
def jsonDumpFlat (kvs : List (String × String)) : List String :=
  if kvs = [] then ["\x7b\x7d"] else ["\x7b"] ++ jsonEntryLines kvs ++ ["\x7d"]

/-- The `config` dictionary of src/make_json.py. -/
def config (programData : String) : List (String × String) :=
  [("src_dir", pathStr (srcDirOf programData))]

/-- The top-level script of src/make_json.py: build the config mapping and
write it to config.json as JSON. -/
def make_json_main (programData : String) (fs : FS) : FS :=
  setFile ["config.json"] (jsonDumpFlat (config programData)) fs

/-- The driver-version string `get_nvidia_driver_info` returns for a given
subprocess outcome, when it returns at all: "Unknown" on a non-zero exit,
the stripped second stdout line on success. -/
def DriverQueryReturns (qo : QueryOutcome) (v : String) : Prop :=
  (qo = .calledProcessError ∧ v = "Unknown") ∨
  (∃ l x, qo = .ok l ∧ l[1]? = some x ∧ v = x.trim)

/-- Outcomes of the driver query on which `get_nvidia_driver_info` returns
normally: a non-zero exit, or a successful run with at least two stdout
lines. -/
def QueryNormal (qo : QueryOutcome) : Prop :=
  ∃ v, DriverQueryReturns qo v

/-- The trace of a run of `main`, empty when the run aborted. -/
def traceOf (x : Except PyErr MainResult) : List Event :=
  match x with
  | .ok r => r.trace
  | .error _ => []

def isStatusEv : Event → Bool
  | .printStatus _ => true
  | _ => false

/-- Whether a trace performs the actions in the order the spec asserts:
query, create directory, copy profiles, export registry, write the
driver-info file, and only then print the status. -/
def claimedOrder (tr : List Event) : Bool :=
  Nat.blt (tr.findIdx (· == Event.queryDriver)) (tr.findIdx (· == Event.createDir)) &&
  Nat.blt (tr.findIdx (· == Event.createDir)) (tr.findIdx (· == Event.copyProfiles)) &&
  Nat.blt (tr.findIdx (· == Event.copyProfiles)) (tr.findIdx (· == Event.exportRegistry)) &&
  Nat.blt (tr.findIdx (· == Event.exportRegistry)) (tr.findIdx (· == Event.writeDriverInfo)) &&
  Nat.blt (tr.findIdx (· == Event.writeDriverInfo)) (tr.findIdx isStatusEv)

/-! Concrete sample inputs used to instantiate the theorems. -/

def t0 : DateTime := ⟨2024, 1, 1, 0, 0, 0⟩

def pd0 : String := "C:\\ProgramData"

def home0 : FsPath := ["C:\\Users\\u"]

/-- An empty filesystem. -/
def fs0c : FS := ⟨fun _ => none, fun _ => false⟩

/-- A filesystem where only the backup directory exists. -/
def fsC3 : FS := ⟨fun _ => none, fun q => q == ["C:\\Users\\u", "bk"]⟩

/-- A filesystem where the source profile directory exists and holds one
file `f.bin`. -/
def fsC4 : FS :=
  ⟨fun p => if p = srcDirOf pd0 ++ ["f.bin"] then some ["data"] else none,
   fun q => q == srcDirOf pd0⟩

/-- The filesystem produced by a first successful run of
`create_backup_directory` on `fs0c`. -/
def c9snd : FS :=
  match create_backup_directory home0 t0 .ok fs0c with
  | .ok x => x.2
  | .error _ => fs0c

/-! ### Supporting lemmas -/

theorem isPref_append (xs ys : List String) : isPref xs (xs ++ ys) = true := by
  induction xs with
  | nil => rfl
  | cons a as ih => simp [isPref, ih]

theorem isPref_refl (xs : List String) : isPref xs xs = true := by
  simpa using isPref_append xs []

theorem appendLog_dirs (msg : String) (fs : FS) :
    (appendLog msg fs).dirs = fs.dirs := rfl

theorem appendLog_files_ne (msg : String) (fs : FS) (p : FsPath)
    (h : p ≠ logPath) : (appendLog msg fs).files p = fs.files p := by
  simp [appendLog, h]

theorem setFile_files_self (p : FsPath) (c : List String) (fs : FS) :
    (setFile p c fs).files p = some c := by
  simp [setFile]

theorem fixedDigits_length (w n : Nat) : (fixedDigits w n).length = w := by
  induction w generalizing n with
  | zero => rfl
  | succ w ih => simp [fixedDigits, ih]

theorem digitChar_inj (d1 d2 : Nat) (hd1 : d1 < 10) (hd2 : d2 < 10)
    (h : digitChar d1 = digitChar d2) : d1 = d2 := by
  have key : ∀ a b : Fin 10, digitChar a.val = digitChar b.val → a = b := by decide
  exact congrArg Fin.val (key ⟨d1, hd1⟩ ⟨d2, hd2⟩ h)

theorem fixedDigits_inj (w : Nat) : ∀ n1 n2, n1 < 10 ^ w → n2 < 10 ^ w →
    fixedDigits w n1 = fixedDigits w n2 → n1 = n2 := by
  induction w with
  | zero =>
    intro n1 n2 h1 h2 _
    simp [Nat.pow_zero] at h1 h2
    omega
  | succ w ih =>
    intro n1 n2 h1 h2 h
    simp only [fixedDigits] at h
    obtain ⟨hpre, hlast⟩ :=
      List.append_inj h (by simp [fixedDigits_length])
    have hmod : n1 % 10 = n2 % 10 := by
      apply digitChar_inj _ _ (Nat.mod_lt _ (by omega)) (Nat.mod_lt _ (by omega))
      simpa using hlast
    have hdiv : n1 / 10 = n2 / 10 := by
      apply ih
      · exact (Nat.div_lt_iff_lt_mul (by omega)).mpr (by
          have : 10 ^ (w + 1) = 10 ^ w * 10 := by ring
          omega)
      · exact (Nat.div_lt_iff_lt_mul (by omega)).mpr (by
          have : 10 ^ (w + 1) = 10 ^ w * 10 := by ring
          omega)
      · exact hpre
    omega

theorem padDigits_of_lt (w n : Nat) (h : n < 10 ^ w) :
    padDigits w n = fixedDigits w n := by
  simp [padDigits, h]

theorem padDigits_length_of_lt (w n : Nat) (h : n < 10 ^ w) :
    (padDigits w n).length = w := by
  rw [padDigits_of_lt w n h]; exact fixedDigits_length w n

theorem strftimeChars_inj (t1 t2 : DateTime) (hv1 : ValidDT t1)
    (hv2 : ValidDT t2) (h : strftimeChars t1 = strftimeChars t2) : t1 = t2 := by
  have p4 : (10 : Nat) ^ 4 = 10000 := by norm_num
  have p2 : (10 : Nat) ^ 2 = 100 := by norm_num
  obtain ⟨y1, mo1, d1, hh1, mi1, s1⟩ := t1
  obtain ⟨y2, mo2, d2, hh2, mi2, s2⟩ := t2
  simp only [ValidDT] at hv1 hv2
  have hy1 : y1 < 10 ^ 4 := by rw [p4]; omega
  have hy2 : y2 < 10 ^ 4 := by rw [p4]; omega
  have hmo1 : mo1 < 10 ^ 2 := by rw [p2]; omega
  have hmo2 : mo2 < 10 ^ 2 := by rw [p2]; omega
  have hd1 : d1 < 10 ^ 2 := by rw [p2]; omega
  have hd2 : d2 < 10 ^ 2 := by rw [p2]; omega
  have hhh1 : hh1 < 10 ^ 2 := by rw [p2]; omega
  have hhh2 : hh2 < 10 ^ 2 := by rw [p2]; omega
  have hmi1 : mi1 < 10 ^ 2 := by rw [p2]; omega
  have hmi2 : mi2 < 10 ^ 2 := by rw [p2]; omega
  have hs1 : s1 < 10 ^ 2 := by rw [p2]; omega
  have hs2 : s2 < 10 ^ 2 := by rw [p2]; omega
  simp only [strftimeChars, padDigits_of_lt _ _ hy1, padDigits_of_lt _ _ hy2,
    padDigits_of_lt _ _ hmo1, padDigits_of_lt _ _ hmo2,
    padDigits_of_lt _ _ hd1, padDigits_of_lt _ _ hd2,
    padDigits_of_lt _ _ hhh1, padDigits_of_lt _ _ hhh2,
    padDigits_of_lt _ _ hmi1, padDigits_of_lt _ _ hmi2,
    padDigits_of_lt _ _ hs1, padDigits_of_lt _ _ hs2] at h
  obtain ⟨h, es⟩ := List.append_inj' h (by simp [fixedDigits_length])
  obtain ⟨h, emi⟩ := List.append_inj' h (by simp [fixedDigits_length])
  obtain ⟨h, eh⟩ := List.append_inj' h (by simp [fixedDigits_length])
  obtain ⟨h, _⟩ := List.append_inj' h rfl
  obtain ⟨h, ed⟩ := List.append_inj' h (by simp [fixedDigits_length])
  obtain ⟨ey, emo⟩ := List.append_inj' h (by simp [fixedDigits_length])
  simp only [DateTime.mk.injEq]
  exact ⟨fixedDigits_inj 4 _ _ hy1 hy2 ey, fixedDigits_inj 2 _ _ hmo1 hmo2 emo,
    fixedDigits_inj 2 _ _ hd1 hd2 ed, fixedDigits_inj 2 _ _ hhh1 hhh2 eh,
    fixedDigits_inj 2 _ _ hmi1 hmi2 emi, fixedDigits_inj 2 _ _ hs1 hs2 es⟩

theorem backupDirName_inj (t1 t2 : DateTime) (hv1 : ValidDT t1)
    (hv2 : ValidDT t2) (h : backupDirName t1 = backupDirName t2) : t1 = t2 := by
  apply strftimeChars_inj t1 t2 hv1 hv2
  have hd := congrArg String.data h
  simp only [backupDirName, String.data_append] at hd
  exact List.append_cancel_left hd

theorem dest_ne_logPath (bd rel : FsPath) :
    (bd ++ ["NVIDIA_Profiles"]) ++ rel ≠ logPath := by
  intro h
  have hl := congrArg List.length h
  simp [logPath] at hl
  have hbd : bd = [] := List.length_eq_zero.mp (by omega)
  have hrel : rel = [] := List.length_eq_zero.mp (by omega)
  subst hbd; subst hrel
  simp [logPath] at h

theorem get_nvidia_driver_info_ok (qo : QueryOutcome) (v : String)
    (hv : DriverQueryReturns qo v) (g : FS) :
    ∃ g', get_nvidia_driver_info qo g = .ok (v, g') := by
  rcases hv with ⟨hq, hvv⟩ | ⟨l, x, hq, hx, hvv⟩ <;> subst hq <;> subst hvv
  · exact ⟨_, rfl⟩
  · exact ⟨appendLog ("INFO - NVIDIA Driver Version: " ++ x.trim) g,
      by simp [get_nvidia_driver_info, hx]⟩

theorem create_backup_directory_ok (home : FsPath) (t : DateTime) (fs : FS) :
    ∃ fs', create_backup_directory home t .ok fs =
      .ok (home ++ [backupDirName t], fs') := by
  cases hd : fs.dirs (home ++ [backupDirName t])
  · exact ⟨appendLog ("INFO - Created backup directory: " ++
        pathStr (home ++ [backupDirName t]))
        { fs with dirs := fun q => fs.dirs q || isPref q (home ++ [backupDirName t]) },
      by simp [create_backup_directory, pyMkdir, hd]⟩
  · exact ⟨appendLog ("INFO - Created backup directory: " ++
        pathStr (home ++ [backupDirName t])) fs,
      by simp [create_backup_directory, pyMkdir, hd]⟩

theorem create_backup_directory_dirs (home : FsPath) (t : DateTime)
    (o : MkdirOutcome) (fs fs1 : FS) (p : FsPath)
    (h : create_backup_directory home t o fs = .ok (p, fs1)) :
    p = home ++ [backupDirName t] ∧
    fs1.dirs (home ++ [backupDirName t]) = true := by
  cases hm : pyMkdir (home ++ [backupDirName t]) o fs with
  | error e =>
    simp only [create_backup_directory.eq_def, hm] at h
    exact Except.noConfusion h
  | ok fs1' =>
    simp only [create_backup_directory.eq_def, hm, Except.ok.injEq, Prod.mk.injEq] at h
    obtain ⟨hp, hfs⟩ := h
    subst hp
    subst hfs
    refine ⟨rfl, ?_⟩
    rw [appendLog_dirs]
    unfold pyMkdir at hm
    cases hd : fs.dirs (home ++ [backupDirName t])
    · rw [hd] at hm
      cases o with
      | ok =>
        simp at hm
        subst hm
        simp [hd, isPref_refl]
      | err e => simp at hm
    · rw [hd] at hm
      simp at hm
      subst hm
      exact hd

theorem main_spec (home : FsPath) (pd : String) (qo : QueryOutcome)
    (co : CopyOutcome) (ro : RegOutcome) (t1 t2 : DateTime) (fs : FS)
    (v : String) (hv : DriverQueryReturns qo v) :
    ∃ r, main home pd qo .ok co ro t1 t2 fs = .ok r ∧
      r.backupDir = home ++ [backupDirName t1] ∧
      (∃ b, r.trace = [.queryDriver, .createDir, .copyProfiles, .exportRegistry,
        .printStatus b, .writeDriverInfo, .printNextSteps]) ∧
      r.fs.files ((home ++ [backupDirName t1]) ++ ["driver_info.txt"]) =
        some (driverInfoLines v t2) := by
  obtain ⟨g1, hg⟩ := get_nvidia_driver_info_ok qo v hv
    (appendLog "INFO - Starting NVIDIA driver settings backup process" fs)
  obtain ⟨g2, hc⟩ := create_backup_directory_ok home t1 g1
  simp only [main, hg, hc]
  exact ⟨_, rfl, rfl, ⟨_, rfl⟩, setFile_files_self _ _ _⟩

/-! ### Claim theorems -/

/-- C1 counterexample: the claim says no failure of any of the four I/O
steps aborts `main`, but `backup_dir.mkdir` on line 39 of src/main.py is
not guarded by any try/except: when directory creation fails (here with a
permission error), the exception propagates out of `main` and the run
aborts without reporting any summary. -/
theorem c1_counterexample :
    main home0 pd0 .calledProcessError (.err .permissionError) .ok (.ok []) t0 t0 fs0c =
      .error .permissionError := rfl

/-- C1 (amended): for every outcome of the guarded steps — the driver
query exiting non-zero or succeeding with at least two stdout lines, and
any success or failure of the profile copy and of the registry export —
and provided directory creation succeeds, `main` completes without an
uncaught exception and its run reports a full-success or partial-success
status. -/
theorem c1_amended (home : FsPath) (pd : String) (qo : QueryOutcome)
    (co : CopyOutcome) (ro : RegOutcome) (t1 t2 : DateTime) (fs : FS)
    (hq : QueryNormal qo) :
    ∃ r, main home pd qo .ok co ro t1 t2 fs = .ok r ∧
      ∃ b, Event.printStatus b ∈ r.trace := by
  obtain ⟨v, hv⟩ := hq
  obtain ⟨r, hr, _, ⟨b, htr⟩, _⟩ := main_spec home pd qo co ro t1 t2 fs v hv
  refine ⟨r, hr, b, ?_⟩
  rw [htr]
  simp

theorem c1_witness :
    QueryNormal .calledProcessError ∧
    ∃ r, main home0 pd0 .calledProcessError .ok .ok .err t0 t0 fs0c = .ok r ∧
      ∃ b, Event.printStatus b ∈ r.trace :=
  ⟨⟨"Unknown", Or.inl ⟨rfl, rfl⟩⟩,
   c1_amended home0 pd0 .calledProcessError .ok .err t0 t0 fs0c
     ⟨"Unknown", Or.inl ⟨rfl, rfl⟩⟩⟩

/-- C2: after a completed run of `main` (the driver query returning
normally and the directory creation succeeding), the file driver_info.txt
exists inside the backup directory, for every outcome — success or
failure — of the profile-copy step and of the registry-export step. -/
theorem c2_theorem (home : FsPath) (pd : String) (qo : QueryOutcome)
    (co : CopyOutcome) (ro : RegOutcome) (t1 t2 : DateTime) (fs : FS)
    (hq : QueryNormal qo) :
    ∃ r, main home pd qo .ok co ro t1 t2 fs = .ok r ∧
      (r.fs.files (r.backupDir ++ ["driver_info.txt"])).isSome = true := by
  obtain ⟨v, hv⟩ := hq
  obtain ⟨r, hr, hbd, _, hfile⟩ := main_spec home pd qo co ro t1 t2 fs v hv
  refine ⟨r, hr, ?_⟩
  rw [hbd, hfile]
  rfl

theorem c2_witness :
    QueryNormal .calledProcessError ∧
    ∃ r, main home0 pd0 .calledProcessError .ok (.fail []) .err t0 t0 fs0c = .ok r ∧
      (r.fs.files (r.backupDir ++ ["driver_info.txt"])).isSome = true :=
  ⟨⟨"Unknown", Or.inl ⟨rfl, rfl⟩⟩,
   c2_theorem home0 pd0 .calledProcessError (.fail []) .err t0 t0 fs0c
     ⟨"Unknown", Or.inl ⟨rfl, rfl⟩⟩⟩

/-- C3: when the source profile directory does not exist,
`backup_nvidia_profile_files` returns False — its embedding is a total
function, reflecting that the source catches every exception of the copy
and raises nothing on the missing-directory path — and a pre-existing
backup directory still exists afterwards. -/
theorem c3_theorem (pd : String) (bd : FsPath) (o : CopyOutcome) (fs : FS)
    (hmiss : pathExists (srcDirOf pd) fs = false) (hbd : fs.dirs bd = true) :
    (backup_nvidia_profile_files pd bd o fs).1 = false ∧
    (backup_nvidia_profile_files pd bd o fs).2.dirs bd = true := by
  constructor
  · simp [backup_nvidia_profile_files, hmiss]
  · simp [backup_nvidia_profile_files, hmiss, appendLog, hbd]

theorem c3_witness :
    pathExists (srcDirOf pd0) fsC3 = false ∧
    fsC3.dirs ["C:\\Users\\u", "bk"] = true ∧
    ((backup_nvidia_profile_files pd0 ["C:\\Users\\u", "bk"] .ok fsC3).1 = false ∧
     (backup_nvidia_profile_files pd0 ["C:\\Users\\u", "bk"] .ok fsC3).2.dirs
       ["C:\\Users\\u", "bk"] = true) :=
  ⟨by decide, by decide,
   c3_theorem pd0 ["C:\\Users\\u", "bk"] .ok fsC3 (by decide) (by decide)⟩

/-- C4: whenever `backup_nvidia_profile_files` returns True, every file of
the source tree is present, with the same content, at the same relative
path under `backup_dir/NVIDIA_Profiles`. -/
theorem c4_theorem (pd : String) (bd : FsPath) (o : CopyOutcome) (fs : FS)
    (rel : FsPath) (c : List String)
    (hok : (backup_nvidia_profile_files pd bd o fs).1 = true)
    (hf : fs.files (srcDirOf pd ++ rel) = some c) :
    (backup_nvidia_profile_files pd bd o fs).2.files
      ((bd ++ ["NVIDIA_Profiles"]) ++ rel) = some c := by
  cases hex : pathExists (srcDirOf pd) fs
  · exfalso
    simp [backup_nvidia_profile_files, hex] at hok
  · cases o with
    | fail copied =>
      exfalso
      simp [backup_nvidia_profile_files, hex] at hok
    | ok =>
      simp only [backup_nvidia_profile_files, hex, if_true]
      rw [appendLog_files_ne _ _ _ (dest_ne_logPath bd rel)]
      simp only [copytreeOk, isPref_append, List.drop_left, hf]
      simp

theorem c4_witness :
    (backup_nvidia_profile_files pd0 ["C:\\Users\\u", "bk"] .ok fsC4).1 = true ∧
    fsC4.files (srcDirOf pd0 ++ ["f.bin"]) = some ["data"] ∧
    (backup_nvidia_profile_files pd0 ["C:\\Users\\u", "bk"] .ok fsC4).2.files
      ((["C:\\Users\\u", "bk"] ++ ["NVIDIA_Profiles"]) ++ ["f.bin"]) = some ["data"] :=
  ⟨by decide, by decide,
   c4_theorem pd0 ["C:\\Users\\u", "bk"] .ok fsC4 ["f.bin"] ["data"]
     (by decide) (by decide)⟩

/-- C5: two runs of `create_backup_directory` started at least one second
apart read distinct second-truncated wall-clock values, and distinct valid
wall-clock values always yield distinct timestamp-derived backup directory
names, because the `%Y%m%d_%H%M%S` rendering is injective on valid
datetimes. -/
theorem c5_theorem (t1 t2 : DateTime) (hv1 : ValidDT t1) (hv2 : ValidDT t2)
    (hne : t1 ≠ t2) : backupDirName t1 ≠ backupDirName t2 :=
  fun h => hne (backupDirName_inj t1 t2 hv1 hv2 h)

theorem c5_witness :
    ValidDT ⟨2024, 1, 1, 0, 0, 0⟩ ∧ ValidDT ⟨2024, 1, 1, 0, 0, 1⟩ ∧
    (⟨2024, 1, 1, 0, 0, 0⟩ : DateTime) ≠ ⟨2024, 1, 1, 0, 0, 1⟩ ∧
    backupDirName ⟨2024, 1, 1, 0, 0, 0⟩ ≠ backupDirName ⟨2024, 1, 1, 0, 0, 1⟩ :=
  ⟨by decide, by decide, by decide,
   c5_theorem ⟨2024, 1, 1, 0, 0, 0⟩ ⟨2024, 1, 1, 0, 0, 1⟩
     (by decide) (by decide) (by decide)⟩

/-- C6 counterexample: in a concrete completed run the trace shows that
`main` prints the human-readable full/partial status (lines 95-102 of
src/main.py) before it writes the summary text file driver_info.txt
(lines 104-109), so the order asserted by the claim — summary file
written before the status is printed — does not hold. -/
theorem c6_counterexample :
    traceOf (main home0 pd0 .calledProcessError .ok .ok (.ok []) t0 t0 fs0c) =
      [.queryDriver, .createDir, .copyProfiles, .exportRegistry,
       .printStatus false, .writeDriverInfo, .printNextSteps] ∧
    claimedOrder (traceOf (main home0 pd0 .calledProcessError .ok .ok (.ok []) t0 t0 fs0c)) =
      false := by
  constructor
  · rfl
  · rfl

/-- C6 (amended): in every completed run, `main` performs its steps in
this order: query the driver version, create the destination folder, copy
the profile directory tree, export the registry subtree, print the
human-readable full/partial status, write the summary text file
driver_info.txt, and finally print the next-steps text. -/
theorem c6_amended (home : FsPath) (pd : String) (qo : QueryOutcome)
    (co : CopyOutcome) (ro : RegOutcome) (t1 t2 : DateTime) (fs : FS)
    (hq : QueryNormal qo) :
    ∃ r b, main home pd qo .ok co ro t1 t2 fs = .ok r ∧
      r.trace = [.queryDriver, .createDir, .copyProfiles, .exportRegistry,
        .printStatus b, .writeDriverInfo, .printNextSteps] := by
  obtain ⟨v, hv⟩ := hq
  obtain ⟨r, hr, _, ⟨b, htr⟩, _⟩ := main_spec home pd qo co ro t1 t2 fs v hv
  exact ⟨r, b, hr, htr⟩

theorem c6_witness :
    QueryNormal .calledProcessError ∧
    ∃ r b, main home0 pd0 .calledProcessError .ok .ok (.ok []) t0 t0 fs0c = .ok r ∧
      r.trace = [.queryDriver, .createDir, .copyProfiles, .exportRegistry,
        .printStatus b, .writeDriverInfo, .printNextSteps] :=
  ⟨⟨"Unknown", Or.inl ⟨rfl, rfl⟩⟩,
   c6_amended home0 pd0 .calledProcessError .ok (.ok []) t0 t0 fs0c
     ⟨"Unknown", Or.inl ⟨rfl, rfl⟩⟩⟩

/-- C7: for every value of the PROGRAMDATA environment variable, the
make_json.py script writes to config.json a flat JSON document whose
mapping has exactly the single key "src_dir", bound to the string form of
the source profile directory path derived from PROGRAMDATA. -/
theorem c7_theorem (pd : String) (fs : FS) :
    (make_json_main pd fs).files ["config.json"] =
      some (jsonDumpFlat (config pd)) ∧
    (config pd).map Prod.fst = ["src_dir"] ∧
    (config pd).lookup "src_dir" =
      some (pathStr [pd, "NVIDIA Corporation", "Drs"]) :=
  ⟨setFile_files_self _ _ _, rfl, rfl⟩

/-- C8: whenever the nvidia-smi subprocess exits with a non-zero status,
`get_nvidia_driver_info` returns the string "Unknown" (for every
filesystem state), and the driver_info.txt file written by a completed
run of `main` then contains the line "NVIDIA Driver Version: Unknown". -/
theorem c8_theorem (home : FsPath) (pd : String) (co : CopyOutcome)
    (ro : RegOutcome) (t1 t2 : DateTime) (fs : FS) :
    (∀ g : FS, ∃ g', get_nvidia_driver_info .calledProcessError g =
      .ok ("Unknown", g')) ∧
    ∃ r, main home pd .calledProcessError .ok co ro t1 t2 fs = .ok r ∧
      "NVIDIA Driver Version: Unknown" ∈
        (r.fs.files (r.backupDir ++ ["driver_info.txt"])).getD [] := by
  constructor
  · intro g
    exact ⟨_, rfl⟩
  · obtain ⟨r, hr, hbd, _, hfile⟩ :=
      main_spec home pd .calledProcessError co ro t1 t2 fs "Unknown"
        (Or.inl ⟨rfl, rfl⟩)
    refine ⟨r, hr, ?_⟩
    rw [hbd, hfile]
    simp only [Option.getD_some, driverInfoLines]
    have hhead : ("NVIDIA Driver Version: " ++ "Unknown" : String) =
        "NVIDIA Driver Version: Unknown" := rfl
    rw [hhead]
    exact List.mem_cons_self _ _

/-- C9: `create_backup_directory` never raises when the target directory
already exists, since `mkdir` is called with `exist_ok=True`: if a first
run in a given second succeeded, a second run in the same second succeeds
with any mkdir outcome and returns the same directory path. -/
theorem c9_theorem (home : FsPath) (t : DateTime) (o1 o2 : MkdirOutcome)
    (fs fs1 : FS) (p : FsPath)
    (h : create_backup_directory home t o1 fs = .ok (p, fs1)) :
    ∃ fs2, create_backup_directory home t o2 fs1 = .ok (p, fs2) := by
  obtain ⟨hp, hdir⟩ := create_backup_directory_dirs home t o1 fs fs1 p h
  subst hp
  refine ⟨appendLog ("INFO - Created backup directory: " ++
    pathStr (home ++ [backupDirName t])) fs1, ?_⟩
  simp [create_backup_directory, pyMkdir, hdir]

theorem c9_witness :
    create_backup_directory home0 t0 .ok fs0c =
      .ok (home0 ++ [backupDirName t0], c9snd) ∧
    ∃ fs2, create_backup_directory home0 t0 (.err .permissionError) c9snd =
      .ok (home0 ++ [backupDirName t0], fs2) :=
  ⟨rfl,
   c9_theorem home0 t0 .ok (.err .permissionError) fs0c c9snd
     (home0 ++ [backupDirName t0]) rfl⟩

/-- C10 counterexample: the claim says `backup_nvidia_profile_files` never
modifies any filesystem path outside backup_dir/NVIDIA_Profiles, but the
function writes a log record through the configured logging handlers on
every outcome: here the file nvidia_backup.log, which is not under the
destination directory, changes. -/
theorem c10_counterexample :
    isPref (["C:\\Users\\u", "bk"] ++ ["NVIDIA_Profiles"]) logPath = false ∧
    (backup_nvidia_profile_files pd0 ["C:\\Users\\u", "bk"] .ok fs0c).2.files logPath ≠
      fs0c.files logPath := by
  constructor
  · decide
  · decide

/-- C10 (amended): apart from the log record it appends to the fixed log
file nvidia_backup.log, `backup_nvidia_profile_files` modifies no
filesystem path outside backup_dir/NVIDIA_Profiles, on any outcome; in
particular every source-tree path not lying under
backup_dir/NVIDIA_Profiles is unchanged. -/
theorem c10_amended (pd : String) (bd : FsPath) (o : CopyOutcome) (fs : FS)
    (p : FsPath) (hp : isPref (bd ++ ["NVIDIA_Profiles"]) p = false)
    (hlog : p ≠ logPath) :
    (backup_nvidia_profile_files pd bd o fs).2.files p = fs.files p ∧
    (backup_nvidia_profile_files pd bd o fs).2.dirs p = fs.dirs p := by
  cases hex : pathExists (srcDirOf pd) fs
  · constructor
    · simp [backup_nvidia_profile_files, hex, appendLog, hlog]
    · simp [backup_nvidia_profile_files, hex, appendLog]
  · cases o with
    | ok =>
      constructor
      · simp [backup_nvidia_profile_files, hex, appendLog, hlog, copytreeOk, hp]
      · simp [backup_nvidia_profile_files, hex, appendLog, copytreeOk, hp]
    | fail copied =>
      constructor
      · simp [backup_nvidia_profile_files, hex, appendLog, hlog,
          copytreeFailState, hp]
      · simp [backup_nvidia_profile_files, hex, appendLog, copytreeFailState, hp]

theorem c10_witness :
    isPref (["C:\\Users\\u", "bk"] ++ ["NVIDIA_Profiles"]) ["other"] = false ∧
    (["other"] : FsPath) ≠ logPath ∧
    ((backup_nvidia_profile_files pd0 ["C:\\Users\\u", "bk"] .ok fsC4).2.files
        ["other"] = fsC4.files ["other"] ∧
     (backup_nvidia_profile_files pd0 ["C:\\Users\\u", "bk"] .ok fsC4).2.dirs
        ["other"] = fsC4.dirs ["other"]) :=
  ⟨by decide, by decide,
   c10_amended pd0 ["C:\\Users\\u", "bk"] .ok fsC4 ["other"]
     (by decide) (by decide)⟩

end NVBRT
